import Mathlib

/-!
Shallow embedding of `computer_use_demo/telegram_bot.py`: the per-user
conversation store, the task registry, the message orchestrator
(`handle_message` / `process_message`) and the three sampling-loop
callbacks, together with the command handlers (`start`, `reset`, `stop`).

The external sampling loop is out of scope of the repository; it is
modelled as an oracle `loop : List Message → LoopResult` giving the
terminal outcome of the invocation (returned history, cancellation,
rate-limit error, or generic error).  Outbound Telegram traffic is
modelled as a trace of `Event`s.
-/

namespace TelegramBot

/-- A content block of a history entry.  The bot itself only ever builds
`text` blocks (`BetaTextBlockParam(type="text", text=...)`); blocks
produced by the external loop (tool use, tool results) are carried
opaquely by `blob`. -/
inductive ContentBlock where
  | text (t : String)
  | toolUse (id name input : String)
  | blob (tag : String)
deriving DecidableEq, Repr

/-- A role-tagged history entry (`{"role": ..., "content": [...]}`). -/
structure Message where
  role : String
  content : List ContentBlock
deriving DecidableEq, Repr

/-- The user-role entry appended for an inbound text
(telegram_bot.py lines 107-112). -/
def userEntry (message_text : String) : Message :=
  { role := "user", content := [ContentBlock.text message_text] }

/-- Structure `ToolResult` as consumed by `tool_output_callback`: optional output
text, optional error text, optional base64-encoded image. -/
structure ToolResult where
  output : Option String
  error : Option String
  base64_image : Option String
deriving DecidableEq, Repr

/-- Python truthiness of an `str | None` field (`if tool_output.output:`):
`None` and the empty string are falsy. -/
def strTruthy : Option String → Bool
  | none => false
  | some s => !(s == "")

/-- An outbound HTTP request, opaque to the bot. -/
structure Request where
  tag : String
deriving DecidableEq, Repr

/-- The `response` argument of `api_response_callback`
(`httpx.Response | object | None` in the source): the inbound response
on success, or the error's response/body when the caller reports a
failure.  Opaque to the bot. -/
structure Response where
  tag : String
deriving DecidableEq, Repr

/-- User-visible side effects of the bot, in order of emission. -/
inductive Event where
  | replyText (text : String)
  | replyPhoto (base64_image : String)
  | statusEdit (text : String)
  | statusDelete
deriving DecidableEq, Repr

/-! ### Python dict operations, as association lists -/

/-- Lookup `d[k]` returning `none` when the key is absent. -/
def dictGet? {α β : Type} [DecidableEq α] : List (α × β) → α → Option β
  | [], _ => none
  | (k', v) :: rest, k => if k' = k then some v else dictGet? rest k

/-- Assignment `d[k] = v`: overwrite the entry for `k` in place, or append a new
entry when `k` is absent (Python dicts keep insertion order). -/
def dictSet {α β : Type} [DecidableEq α] : List (α × β) → α → β → List (α × β)
  | [], k, v => [(k, v)]
  | (k', v') :: rest, k, v =>
      if k' = k then (k, v) :: rest else (k', v') :: dictSet rest k v

/-- Deletion `del d[k]`: remove the binding of `k` (no-op when absent).  Every
reachable dict has unique keys, so removing every binding of `k`
coincides with Python's single-entry deletion. -/
def dictDel {α β : Type} [DecidableEq α] : List (α × β) → α → List (α × β)
  | [], _ => []
  | (k', v') :: rest, k =>
      if k' = k then dictDel rest k else (k', v') :: dictDel rest k

/-- Membership `k in d`. -/
def dictHas {α β : Type} [DecidableEq α] (d : List (α × β)) (k : α) : Bool :=
  (dictGet? d k).isSome

/-! ### Conversation state -/

/-- The per-user conversation state dict (telegram_bot.py lines 73-79). -/
structure ConversationState where
  messages : List Message
  tools : List (String × ToolResult)
  responses : List (String × (Request × Option Response))
  only_n_most_recent_images : Nat
  custom_system_prompt : String
deriving DecidableEq, Repr

/-- The fresh state installed on first contact
(telegram_bot.py lines 72-79). -/
def freshState : ConversationState :=
  { messages := []
    tools := []
    responses := []
    only_n_most_recent_images := 10
    custom_system_prompt := "" }

/-! ### Callbacks -/

/-- Callback `tool_output_callback` (lines 162-180): record the result under its
tool-use id, then send up to three replies. -/
def tool_output_callback (state : ConversationState) (tool_output : ToolResult)
    (tool_use_id : String) : ConversationState × List Event :=
  let state1 := { state with tools := dictSet state.tools tool_use_id tool_output }
  let evsOut :=
    if strTruthy tool_output.output then
      [Event.replyText ("📄 *Tool output:*\n```\n" ++ tool_output.output.getD "" ++ "\n```")]
    else []
  let evsImg :=
    if strTruthy tool_output.base64_image then
      [Event.replyPhoto (tool_output.base64_image.getD ""),
       Event.replyText "📷 *Screenshot captured by the tool*"]
    else []
  let evsErr :=
    if strTruthy tool_output.error then
      [Event.replyText ("❗️ *Tool error:*\n```\n" ++ tool_output.error.getD "" ++ "\n```")]
    else []
  (state1, evsOut ++ evsImg ++ evsErr)

/-- Callback `api_response_callback` (lines 182-211): store
`(request, response)` under the timestamp key `response_id`; the rest of
the body only logs and so emits no events and touches no other state.
The error argument is inspected for logging only — it is not stored. -/
def api_response_callback (state : ConversationState) (response_id : String)
    (request : Request) (response : Option Response) (error : Option String) :
    ConversationState × List Event :=
  let _ := error
  ({ state with responses := dictSet state.responses response_id (request, response) }, [])

/-- Callback `output_callback` (lines 148-160): forward a text block or a
tool-use announcement as a reply; other block types are ignored. -/
def output_callback (content : ContentBlock) : List Event :=
  match content with
  | ContentBlock.text t =>
      [Event.replyText ("📝 *Assistant\x27s response:*\n" ++ t)]
  | ContentBlock.toolUse _ tool_name tool_input =>
      [Event.replyText ("🔧 *Using tool `" ++ tool_name ++ "` with input:*\n```\n"
        ++ tool_input ++ "\n```")]
  | ContentBlock.blob _ => []

/-! ### Orchestration -/

/-- Terminal outcome of one invocation of the external `sampling_loop`
(out of scope for this repository): it either returns an updated
history, is cancelled at a suspension point (`asyncio.CancelledError`),
raises `RateLimitError`, or raises some other `Exception`.  The error
constructors carry `str(e)`. -/
inductive LoopResult where
  | ok (newHistory : List Message)
  | cancelled
  | rateLimited (errText : String)
  | failed (errText : String)
deriving DecidableEq, Repr

/-- The rate-limit status edit (lines 139-144). -/
def rateLimitText (e : String) : String :=
  "⚠️ *Rate limit exceeded*\n\n```\n" ++ e ++ "\n```\n\n"
    ++ "Please wait a minute before trying again."

/-- The generic-error status edit (line 146, and line 97). -/
def genericErrorText (e : String) : String :=
  "❌ An error occurred: ```\n" ++ e ++ "\n```"

/-- Result of `process_message`: the conversation state afterwards, the
events it emitted, whether it re-raised `asyncio.CancelledError`
(`raise` at line 137; `CancelledError` is a `BaseException`, so nothing
else escapes: `RateLimitError` and `Exception` are both caught), and —
as a ghost observation — the history the sampling loop was invoked
with. -/
structure ProcOutput where
  state : ConversationState
  events : List Event
  raisedCancelled : Bool
  sentToLoop : List Message
deriving Repr

/-- Orchestrator `process_message` (lines 103-146): append the inbound text as a
user-role entry, run the sampling loop on the accumulated history, and
resolve the outcome.  The loop is the oracle `loop`, applied to the
history passed as the `messages=` argument. -/
def process_message (state : ConversationState) (message_text : String)
    (loop : List Message → LoopResult) : ProcOutput :=
  let msgs1 := state.messages ++ [userEntry message_text]
  match loop msgs1 with
  | LoopResult.ok newHistory =>
      { state := { state with messages := newHistory }
        events := [Event.statusDelete]
        raisedCancelled := false
        sentToLoop := msgs1 }
  | LoopResult.cancelled =>
      -- pop the interrupted entry (guarded on non-emptiness), edit the
      -- status, then clear the history entirely, and re-raise
      let msgs2 := if msgs1 = [] then msgs1 else msgs1.dropLast
      let _ := msgs2
      { state := { state with messages := [] }
        events := [Event.statusEdit "Processing cancelled."]
        raisedCancelled := true
        sentToLoop := msgs1 }
  | LoopResult.rateLimited e =>
      { state := { state with messages := msgs1 }
        events := [Event.statusEdit (rateLimitText e)]
        raisedCancelled := false
        sentToLoop := msgs1 }
  | LoopResult.failed e =>
      { state := { state with messages := msgs1 }
        events := [Event.statusEdit (genericErrorText e)]
        raisedCancelled := false
        sentToLoop := msgs1 }

/-- The process-wide singletons: `user_states` and `active_tasks`
(lines 51-54).  The task registry holds the user ids that currently own
a live orchestration task. -/
structure BotState where
  user_states : List (Nat × ConversationState)
  active_tasks : List (Nat × Unit)
deriving Repr

/-- The authorization gate shared by all handlers
(`if not TELEGRAM_USER_ID or str(user_id) != TELEGRAM_USER_ID`):
`allowed = none` models `TELEGRAM_USER_ID` unset or blank (deny-all). -/
def authorized (allowed : Option String) (user_id : Nat) : Bool :=
  match allowed with
  | none => false
  | some s => toString user_id = s

/-- Result of `handle_message`: the global state afterwards, the events
emitted, whether `asyncio.CancelledError` propagated out of the handler
(the `except Exception` at line 96 does not catch it), and the ghost
observation of the history sent to the loop (`none` when the loop was
never invoked). -/
structure HandleOutput where
  bot : BotState
  events : List Event
  cancelledPropagated : Bool
  sentToLoop : Option (List Message)
deriving Repr

/-- The lazily-initialized conversation store (lines 71-79): install
`freshState` for `user_id` when absent, keep the store as is
otherwise. -/
def statesAfterInit (states : List (Nat × ConversationState)) (user_id : Nat) :
    List (Nat × ConversationState) :=
  if dictHas states user_id then states
  else dictSet states user_id freshState

/-- Handler `handle_message` (lines 58-101): gate, lazily initialize the
conversation state, send the status reply, run `process_message` as a
task registered in `active_tasks`, and unconditionally (`finally`)
delete the registry entry.  `process_message` catches every `Exception`
itself, so the only thing `await task` can raise is `CancelledError`,
which `except Exception` does not intercept. -/
def handle_message (allowed : Option String) (bot : BotState) (user_id : Nat)
    (message_text : String) (loop : List Message → LoopResult) : HandleOutput :=
  if authorized allowed user_id then
    let states1 := statesAfterInit bot.user_states user_id
    let state := (dictGet? states1 user_id).getD freshState
    let tasks1 := dictSet bot.active_tasks user_id ()
    let out := process_message state message_text loop
    let tasks2 := dictDel tasks1 user_id
    { bot := { user_states := dictSet states1 user_id out.state
               active_tasks := tasks2 }
      events := Event.replyText "Processing your request..." :: out.events
      cancelledPropagated := out.raisedCancelled
      sentToLoop := some out.sentToLoop }
  else
    { bot := bot, events := [], cancelledPropagated := false, sentToLoop := none }

/-- The `/start` greeting (lines 222-224), with the security warning
(line 56) interpolated. -/
def startText : String :=
  "Hello! I\x27m your Computer Use assistant.\n\n"
    ++ "⚠️ Security Alert: Never provide access to sensitive accounts or data, "
    ++ "as malicious web content can hijack Claude\x27s behavior"
    ++ "\n\nSend me a message to start interacting."

/-- Handler `start` (lines 213-224). -/
def start (allowed : Option String) (bot : BotState) (user_id : Nat) :
    BotState × List Event :=
  if authorized allowed user_id then
    (bot, [Event.replyText startText])
  else (bot, [])

/-- Handler `reset` (lines 226-237): drop the conversation state entry for the
user, then confirm. -/
def reset (allowed : Option String) (bot : BotState) (user_id : Nat) :
    BotState × List Event :=
  if authorized allowed user_id then
    let states1 :=
      if dictHas bot.user_states user_id then dictDel bot.user_states user_id
      else bot.user_states
    ({ bot with user_states := states1 },
     [Event.replyText "Conversation reset. Send a new message to start fresh."])
  else (bot, [])

/-- Result of `stop`: the global state afterwards, the events emitted,
and whether `task.cancel()` was requested on the registered task. -/
structure StopOutput where
  bot : BotState
  events : List Event
  cancelRequested : Bool
deriving Repr

/-- Handler `stop` (lines 239-253): cancel the registered task when present
(leaving the registry entry to the running task's `finally`), otherwise
report that nothing is running. -/
def stop (allowed : Option String) (bot : BotState) (user_id : Nat) : StopOutput :=
  if authorized allowed user_id then
    if dictHas bot.active_tasks user_id then
      { bot := bot
        events := [Event.replyText "🛑 Processing stopped."]
        cancelRequested := true }
    else
      { bot := bot
        events := [Event.replyText "No active processing to stop."]
        cancelRequested := false }
  else
    { bot := bot, events := [], cancelRequested := false }

/-! ### Observations and fixtures -/

/-- Whether an event is an edit of the status reply. -/
def isStatusEdit : Event → Bool
  | Event.statusEdit _ => true
  | _ => false

/-- Whether the loop outcome was a cancellation. -/
def LoopResult.isCancelled : LoopResult → Bool
  | LoopResult.cancelled => true
  | _ => false

/-- The single terminal status event `process_message` resolves each
loop outcome into. -/
def terminalEvent : LoopResult → Event
  | LoopResult.ok _ => Event.statusDelete
  | LoopResult.cancelled => Event.statusEdit "Processing cancelled."
  | LoopResult.rateLimited e => Event.statusEdit (rateLimitText e)
  | LoopResult.failed e => Event.statusEdit (genericErrorText e)

/-- A concrete assistant turn, for concrete evaluations. -/
def sampleAssistant : Message :=
  { role := "assistant", content := [ContentBlock.text "hi there"] }

/-- A conversation with one completed turn, for concrete evaluations. -/
def sampleState : ConversationState :=
  { messages := [userEntry "earlier", sampleAssistant]
    tools := []
    responses := []
    only_n_most_recent_images := 10
    custom_system_prompt := "" }

/-- A bot whose user 7 already has `sampleState` stored. -/
def sampleBot : BotState :=
  { user_states := [(7, sampleState)], active_tasks := [] }

/-! ### Dictionary lemmas -/

theorem dictGet?_dictSet_self {α β : Type} [DecidableEq α]
    (d : List (α × β)) (k : α) (v : β) :
    dictGet? (dictSet d k v) k = some v := by
  induction d with
  | nil => simp [dictSet, dictGet?]
  | cons p rest ih =>
      obtain ⟨k', v'⟩ := p
      by_cases h : k' = k
      · simp [dictSet, dictGet?, h]
      · simp [dictSet, dictGet?, h, ih]

theorem dictGet?_dictSet_ne {α β : Type} [DecidableEq α]
    (d : List (α × β)) (k k' : α) (v : β) (h : k' ≠ k) :
    dictGet? (dictSet d k v) k' = dictGet? d k' := by
  induction d with
  | nil => simp [dictSet, dictGet?, Ne.symm h]
  | cons p rest ih =>
      obtain ⟨k0, v0⟩ := p
      by_cases h0 : k0 = k
      · subst h0
        simp [dictSet, dictGet?, Ne.symm h]
      · simp [dictSet, dictGet?, h0, ih]

theorem dictGet?_dictDel_self {α β : Type} [DecidableEq α]
    (d : List (α × β)) (k : α) :
    dictGet? (dictDel d k) k = none := by
  induction d with
  | nil => rfl
  | cons p rest ih =>
      obtain ⟨k', v'⟩ := p
      by_cases h : k' = k
      · simp [dictDel, h, ih]
      · simp [dictDel, dictGet?, h, ih]

theorem dictSet_length_of_absent {α β : Type} [DecidableEq α]
    (d : List (α × β)) (k : α) (v : β) (h : dictGet? d k = none) :
    (dictSet d k v).length = d.length + 1 := by
  induction d with
  | nil => rfl
  | cons p rest ih =>
      obtain ⟨k', v'⟩ := p
      by_cases hk : k' = k
      · simp [dictGet?, hk] at h
      · simp only [dictGet?, if_neg hk] at h
        simp [dictSet, hk, ih h]

/-! ### Orchestration lemmas -/

/-- The conversation state handed to `process_message` is the stored one
when present, and the freshly installed default otherwise. -/
theorem statesAfterInit_get (states : List (Nat × ConversationState)) (user_id : Nat) :
    dictGet? (statesAfterInit states user_id) user_id =
      some ((dictGet? states user_id).getD freshState) := by
  unfold statesAfterInit
  by_cases h : dictHas states user_id
  · rw [if_pos h]
    unfold dictHas at h
    cases hg : dictGet? states user_id with
    | none => rw [hg] at h; simp at h
    | some s => simp [hg]
  · rw [if_neg h]
    unfold dictHas at h
    cases hg : dictGet? states user_id with
    | none => simp [dictGet?_dictSet_self, hg]
    | some s => rw [hg] at h; simp at h

/-- Unfolding of `handle_message` on an authorized message: the status
reply, then `process_message` on the stored-or-fresh state; the registry
entry is inserted and then unconditionally deleted. -/
theorem handle_message_authorized (allowed : Option String) (bot : BotState)
    (user_id : Nat) (message_text : String) (loop : List Message → LoopResult)
    (hAuth : authorized allowed user_id = true) :
    handle_message allowed bot user_id message_text loop =
      { bot :=
          { user_states := dictSet (statesAfterInit bot.user_states user_id) user_id
              (process_message ((dictGet? bot.user_states user_id).getD freshState)
                message_text loop).state
            active_tasks := dictDel (dictSet bot.active_tasks user_id ()) user_id }
        events := Event.replyText "Processing your request..." ::
          (process_message ((dictGet? bot.user_states user_id).getD freshState)
            message_text loop).events
        cancelledPropagated :=
          (process_message ((dictGet? bot.user_states user_id).getD freshState)
            message_text loop).raisedCancelled
        sentToLoop :=
          some (process_message ((dictGet? bot.user_states user_id).getD freshState)
            message_text loop).sentToLoop } := by
  simp [handle_message, hAuth, statesAfterInit_get]

/-- For every outcome of the loop, the history handed to it is the
accumulated history with the new user entry appended. -/
theorem process_message_sentToLoop (state : ConversationState)
    (message_text : String) (loop : List Message → LoopResult) :
    (process_message state message_text loop).sentToLoop =
      state.messages ++ [userEntry message_text] := by
  cases h : loop (state.messages ++ [userEntry message_text]) <;>
    simp [process_message, h]

/-! ### Claims -/

/-- Claim C1: when the orchestration task is cancelled during the
sampling-loop invocation, afterwards the conversation history is empty
regardless of how many prior turns existed, the status reply is edited
to state cancellation, and the cancellation signal is re-raised out of
the orchestrator (the task ends cancelled, not completed). -/
theorem c1_cancelled_turn_resets_conversation (state : ConversationState)
    (message_text : String) (loop : List Message → LoopResult)
    (h : loop (state.messages ++ [userEntry message_text]) = LoopResult.cancelled) :
    (process_message state message_text loop).state.messages = [] ∧
    (process_message state message_text loop).events =
      [Event.statusEdit "Processing cancelled."] ∧
    (process_message state message_text loop).raisedCancelled = true := by
  simp [process_message, h]

/-- Concrete run of `c1_cancelled_turn_resets_conversation`: a
conversation with two prior entries, cancelled mid-turn. -/
theorem c1_cancelled_turn_resets_conversation_witness :
    (fun _ : List Message => LoopResult.cancelled)
        (sampleState.messages ++ [userEntry "do it"]) = LoopResult.cancelled ∧
    ((process_message sampleState "do it" (fun _ => LoopResult.cancelled)).state.messages = [] ∧
     (process_message sampleState "do it" (fun _ => LoopResult.cancelled)).events =
       [Event.statusEdit "Processing cancelled."] ∧
     (process_message sampleState "do it" (fun _ => LoopResult.cancelled)).raisedCancelled
       = true) :=
  ⟨rfl, c1_cancelled_turn_resets_conversation sampleState "do it" _ rfl⟩

/-- Claim C2: on normal completion of the sampling loop, the
conversation history stored for the user equals exactly the history the
loop returned, the loop received the stored history with the new
user-role text entry appended, and the status reply is deleted. -/
theorem c2_success_stores_returned_history (allowed : Option String) (bot : BotState)
    (user_id : Nat) (message_text : String) (loop : List Message → LoopResult)
    (newHistory : List Message)
    (hAuth : authorized allowed user_id = true)
    (h : loop (((dictGet? bot.user_states user_id).getD freshState).messages
          ++ [userEntry message_text]) = LoopResult.ok newHistory) :
    (∃ s, dictGet? (handle_message allowed bot user_id message_text loop).bot.user_states
        user_id = some s ∧ s.messages = newHistory) ∧
    (handle_message allowed bot user_id message_text loop).sentToLoop =
      some (((dictGet? bot.user_states user_id).getD freshState).messages
        ++ [userEntry message_text]) ∧
    (handle_message allowed bot user_id message_text loop).events =
      [Event.replyText "Processing your request...", Event.statusDelete] := by
  rw [handle_message_authorized allowed bot user_id message_text loop hAuth]
  refine ⟨⟨_, dictGet?_dictSet_self _ _ _, ?_⟩, ?_, ?_⟩ <;> simp [process_message, h]

/-- Concrete run of `c2_success_stores_returned_history`: user 7 sends
"hello", the loop returns the accumulated history plus two new turns. -/
theorem c2_success_stores_returned_history_witness :
    authorized (some "7") 7 = true ∧
    (fun _ : List Message =>
        LoopResult.ok (sampleState.messages ++ [userEntry "hello", sampleAssistant]))
      (((dictGet? sampleBot.user_states 7).getD freshState).messages ++ [userEntry "hello"])
      = LoopResult.ok (sampleState.messages ++ [userEntry "hello", sampleAssistant]) ∧
    ((∃ s, dictGet? (handle_message (some "7") sampleBot 7 "hello"
          (fun _ => LoopResult.ok
            (sampleState.messages ++ [userEntry "hello", sampleAssistant]))).bot.user_states
        7 = some s ∧
        s.messages = sampleState.messages ++ [userEntry "hello", sampleAssistant]) ∧
     (handle_message (some "7") sampleBot 7 "hello"
        (fun _ => LoopResult.ok
          (sampleState.messages ++ [userEntry "hello", sampleAssistant]))).sentToLoop =
       some (((dictGet? sampleBot.user_states 7).getD freshState).messages
         ++ [userEntry "hello"]) ∧
     (handle_message (some "7") sampleBot 7 "hello"
        (fun _ => LoopResult.ok
          (sampleState.messages ++ [userEntry "hello", sampleAssistant]))).events =
       [Event.replyText "Processing your request...", Event.statusDelete]) :=
  ⟨by decide, rfl,
   c2_success_stores_returned_history (some "7") sampleBot 7 "hello" _ _ (by decide) rfl⟩

/-- Claim C3: after a rate-limited or generically-failed turn, the task
registry no longer holds an entry for the user, the status reply is
edited exactly once and the edit contains the raw error text, and the
user entry appended at the start of the turn remains in the history. -/
theorem c3_failed_turn_keeps_user_entry (allowed : Option String) (bot : BotState)
    (user_id : Nat) (message_text e : String) (loop : List Message → LoopResult)
    (s : ConversationState)
    (hAuth : authorized allowed user_id = true)
    (hs : dictGet? bot.user_states user_id = some s)
    (hLoop : loop (s.messages ++ [userEntry message_text]) = LoopResult.rateLimited e ∨
             loop (s.messages ++ [userEntry message_text]) = LoopResult.failed e) :
    dictHas (handle_message allowed bot user_id message_text loop).bot.active_tasks
      user_id = false ∧
    ((handle_message allowed bot user_id message_text loop).events.filter
      (fun ev => isStatusEdit ev)).length = 1 ∧
    (∃ pre post, (handle_message allowed bot user_id message_text loop).events =
      [Event.replyText "Processing your request...",
       Event.statusEdit (pre ++ e ++ post)]) ∧
    (∃ s', dictGet? (handle_message allowed bot user_id message_text loop).bot.user_states
        user_id = some s' ∧
      s'.messages = s.messages ++ [userEntry message_text]) := by
  rw [handle_message_authorized allowed bot user_id message_text loop hAuth]
  rcases hLoop with h | h
  · refine ⟨?_, ?_, ?_, ?_⟩
    · simp [dictHas, dictGet?_dictDel_self]
    · simp [hs, process_message, h, isStatusEdit]
    · refine ⟨"⚠️ *Rate limit exceeded*\n\n```\n",
        "\n```\n\nPlease wait a minute before trying again.", ?_⟩
      simp [hs, process_message, h, rateLimitText, String.append_assoc]
    · exact ⟨_, dictGet?_dictSet_self _ _ _, by simp [hs, process_message, h]⟩
  · refine ⟨?_, ?_, ?_, ?_⟩
    · simp [dictHas, dictGet?_dictDel_self]
    · simp [hs, process_message, h, isStatusEdit]
    · refine ⟨"❌ An error occurred: ```\n", "\n```", ?_⟩
      simp [hs, process_message, h, genericErrorText, String.append_assoc]
    · exact ⟨_, dictGet?_dictSet_self _ _ _, by simp [hs, process_message, h]⟩

/-- Concrete run of `c3_failed_turn_keeps_user_entry`: user 7 hits a
rate limit with error text "429". -/
theorem c3_failed_turn_keeps_user_entry_witness :
    authorized (some "7") 7 = true ∧
    dictGet? sampleBot.user_states 7 = some sampleState ∧
    ((fun _ : List Message => LoopResult.rateLimited "429")
        (sampleState.messages ++ [userEntry "go"]) = LoopResult.rateLimited "429" ∨
     (fun _ : List Message => LoopResult.rateLimited "429")
        (sampleState.messages ++ [userEntry "go"]) = LoopResult.failed "429") ∧
    (dictHas (handle_message (some "7") sampleBot 7 "go"
        (fun _ => LoopResult.rateLimited "429")).bot.active_tasks 7 = false ∧
     ((handle_message (some "7") sampleBot 7 "go"
        (fun _ => LoopResult.rateLimited "429")).events.filter
        (fun ev => isStatusEdit ev)).length = 1 ∧
     (∃ pre post, (handle_message (some "7") sampleBot 7 "go"
        (fun _ => LoopResult.rateLimited "429")).events =
        [Event.replyText "Processing your request...",
         Event.statusEdit (pre ++ "429" ++ post)]) ∧
     (∃ s', dictGet? (handle_message (some "7") sampleBot 7 "go"
          (fun _ => LoopResult.rateLimited "429")).bot.user_states 7 = some s' ∧
       s'.messages = sampleState.messages ++ [userEntry "go"])) :=
  ⟨by decide, rfl, Or.inl rfl,
   c3_failed_turn_keeps_user_entry (some "7") sampleBot 7 "go" "429" _ sampleState
     (by decide) rfl (Or.inl rfl)⟩

/-- Claim C4: every authorized message resolves into exactly one
terminal status outcome (deleted on success, edited on cancellation,
rate limit or generic error), errors never escape the task to crash its
caller (only the cancellation signal propagates), and the task-registry
entry is removed unconditionally. -/
theorem c4_exactly_one_terminal_outcome (allowed : Option String) (bot : BotState)
    (user_id : Nat) (message_text : String) (loop : List Message → LoopResult)
    (hAuth : authorized allowed user_id = true) :
    dictHas (handle_message allowed bot user_id message_text loop).bot.active_tasks
      user_id = false ∧
    (handle_message allowed bot user_id message_text loop).events =
      [Event.replyText "Processing your request...",
       terminalEvent (loop (((dictGet? bot.user_states user_id).getD freshState).messages
         ++ [userEntry message_text]))] ∧
    (handle_message allowed bot user_id message_text loop).cancelledPropagated =
      (loop (((dictGet? bot.user_states user_id).getD freshState).messages
         ++ [userEntry message_text])).isCancelled := by
  rw [handle_message_authorized allowed bot user_id message_text loop hAuth]
  refine ⟨by simp [dictHas, dictGet?_dictDel_self], ?_, ?_⟩ <;>
  · cases h : loop (((dictGet? bot.user_states user_id).getD freshState).messages
      ++ [userEntry message_text]) <;>
      simp [process_message, h, terminalEvent, LoopResult.isCancelled]

/-- Concrete run of `c4_exactly_one_terminal_outcome`: a generic
failure with error text "boom" for user 7. -/
theorem c4_exactly_one_terminal_outcome_witness :
    authorized (some "7") 7 = true ∧
    (dictHas (handle_message (some "7") sampleBot 7 "go"
        (fun _ => LoopResult.failed "boom")).bot.active_tasks 7 = false ∧
     (handle_message (some "7") sampleBot 7 "go"
        (fun _ => LoopResult.failed "boom")).events =
       [Event.replyText "Processing your request...",
        terminalEvent ((fun _ : List Message => LoopResult.failed "boom")
          (((dictGet? sampleBot.user_states 7).getD freshState).messages
            ++ [userEntry "go"]))] ∧
     (handle_message (some "7") sampleBot 7 "go"
        (fun _ => LoopResult.failed "boom")).cancelledPropagated =
       ((fun _ : List Message => LoopResult.failed "boom")
          (((dictGet? sampleBot.user_states 7).getD freshState).messages
            ++ [userEntry "go"])).isCancelled) :=
  ⟨by decide, c4_exactly_one_terminal_outcome (some "7") sampleBot 7 "go" _ (by decide)⟩

/-- Claim C5: for every message or command whose sender identity does
not equal the configured allow-listed identity — including the deny-all
case where none is configured — no reply is produced and neither the
conversation store nor the task registry is mutated. -/
theorem c5_unauthorized_silently_dropped (allowed : Option String) (bot : BotState)
    (user_id : Nat) (message_text : String) (loop : List Message → LoopResult)
    (hDeny : ∀ s, allowed = some s → toString user_id ≠ s) :
    handle_message allowed bot user_id message_text loop =
      { bot := bot, events := [], cancelledPropagated := false, sentToLoop := none } ∧
    start allowed bot user_id = (bot, []) ∧
    reset allowed bot user_id = (bot, []) ∧
    stop allowed bot user_id = { bot := bot, events := [], cancelRequested := false } := by
  have hAuth : authorized allowed user_id = false := by
    cases allowed with
    | none => rfl
    | some s =>
        simp only [authorized, decide_eq_false_iff_not]
        exact hDeny s rfl
  simp [handle_message, start, reset, stop, hAuth]

/-- Concrete run of `c5_unauthorized_silently_dropped`: no allow-listed
identity is configured, so even the stored user 7 is denied. -/
theorem c5_unauthorized_silently_dropped_witness :
    (∀ s, (none : Option String) = some s → toString 7 ≠ s) ∧
    (handle_message none sampleBot 7 "hello" (fun _ => LoopResult.cancelled) =
      { bot := sampleBot, events := [], cancelledPropagated := false,
        sentToLoop := none } ∧
     start none sampleBot 7 = (sampleBot, []) ∧
     reset none sampleBot 7 = (sampleBot, []) ∧
     stop none sampleBot 7 =
       { bot := sampleBot, events := [], cancelRequested := false }) :=
  ⟨fun _ h => Option.noConfusion h,
   c5_unauthorized_silently_dropped none sampleBot 7 "hello" _
     (fun _ h => Option.noConfusion h)⟩

/-- Claim C6: a tool result carrying output text, an error text and an
image payload simultaneously produces exactly three outbound reply
groups, in the order output, then image with its caption, then error;
and in every case the result is first recorded in the tool-result
mapping under its tool-invocation identifier, overwriting any prior
entry. -/
theorem c6_tool_output_three_replies (state : ConversationState)
    (tool_output : ToolResult) (tool_use_id : String) (o img e : String)
    (hOut : tool_output.output = some o) (hOutNe : o ≠ "")
    (hImg : tool_output.base64_image = some img) (hImgNe : img ≠ "")
    (hErr : tool_output.error = some e) (hErrNe : e ≠ "") :
    (∀ (st : ConversationState) (res : ToolResult) (id2 : String),
      dictGet? (tool_output_callback st res id2).1.tools id2 = some res) ∧
    (tool_output_callback state tool_output tool_use_id).2 =
      [Event.replyText ("📄 *Tool output:*\n```\n" ++ o ++ "\n```"),
       Event.replyPhoto img,
       Event.replyText "📷 *Screenshot captured by the tool*",
       Event.replyText ("❗️ *Tool error:*\n```\n" ++ e ++ "\n```")] := by
  constructor
  · intro st res id2
    simpa [tool_output_callback] using dictGet?_dictSet_self st.tools id2 res
  · simp [tool_output_callback, strTruthy, hOut, hImg, hErr, hOutNe, hImgNe, hErrNe]

/-- Concrete run of `c6_tool_output_three_replies`: a result with
output "done", image payload "aGk=" and error "warning". -/
theorem c6_tool_output_three_replies_witness :
    ({ output := some "done", error := some "warning", base64_image := some "aGk=" }
        : ToolResult).output = some "done" ∧
    ("done" : String) ≠ "" ∧
    ({ output := some "done", error := some "warning", base64_image := some "aGk=" }
        : ToolResult).base64_image = some "aGk=" ∧
    ("aGk=" : String) ≠ "" ∧
    ({ output := some "done", error := some "warning", base64_image := some "aGk=" }
        : ToolResult).error = some "warning" ∧
    ("warning" : String) ≠ "" ∧
    ((∀ (st : ConversationState) (res : ToolResult) (id2 : String),
        dictGet? (tool_output_callback st res id2).1.tools id2 = some res) ∧
     (tool_output_callback sampleState
        { output := some "done", error := some "warning", base64_image := some "aGk=" }
        "toolu_9").2 =
       [Event.replyText ("📄 *Tool output:*\n```\n" ++ "done" ++ "\n```"),
        Event.replyPhoto "aGk=",
        Event.replyText "📷 *Screenshot captured by the tool*",
        Event.replyText ("❗️ *Tool error:*\n```\n" ++ "warning" ++ "\n```")]) :=
  ⟨rfl, by decide, rfl, by decide, rfl, by decide,
   c6_tool_output_three_replies sampleState _ "toolu_9" "done" "aGk=" "warning"
     rfl (by decide) rfl (by decide) rfl (by decide)⟩

/-- Claim C7: an authorized stop command with no registered task sends
a "nothing to stop" reply and mutates nothing; with a registered task it
requests cancellation of that task and confirms; and the registry entry
is removed by the time the in-flight message handler finishes, hence
before any next message from that user is processed. -/
theorem c7_stop_command (allowed : Option String) (bot : BotState) (user_id : Nat)
    (hAuth : authorized allowed user_id = true) :
    (dictHas bot.active_tasks user_id = false →
      stop allowed bot user_id =
        { bot := bot, events := [Event.replyText "No active processing to stop."],
          cancelRequested := false }) ∧
    (dictHas bot.active_tasks user_id = true →
      stop allowed bot user_id =
        { bot := bot, events := [Event.replyText "🛑 Processing stopped."],
          cancelRequested := true }) ∧
    (∀ (bot' : BotState) (message_text : String) (loop : List Message → LoopResult),
      dictHas (handle_message allowed bot' user_id message_text loop).bot.active_tasks
        user_id = false) := by
  refine ⟨fun h => ?_, fun h => ?_, fun bot' message_text loop => ?_⟩
  · simp [stop, hAuth, h]
  · simp [stop, hAuth, h]
  · rw [handle_message_authorized allowed bot' user_id message_text loop hAuth]
    simp [dictHas, dictGet?_dictDel_self]

/-- Concrete run of `c7_stop_command` for user 7. -/
theorem c7_stop_command_witness :
    authorized (some "7") 7 = true ∧
    ((dictHas sampleBot.active_tasks 7 = false →
       stop (some "7") sampleBot 7 =
         { bot := sampleBot,
           events := [Event.replyText "No active processing to stop."],
           cancelRequested := false }) ∧
     (dictHas sampleBot.active_tasks 7 = true →
       stop (some "7") sampleBot 7 =
         { bot := sampleBot, events := [Event.replyText "🛑 Processing stopped."],
           cancelRequested := true }) ∧
     (∀ (bot' : BotState) (message_text : String) (loop : List Message → LoopResult),
       dictHas (handle_message (some "7") bot' 7 message_text loop).bot.active_tasks 7
         = false)) :=
  ⟨by decide, c7_stop_command (some "7") sampleBot 7 (by decide)⟩

/-- Claim C8: every invocation of the API-response callback stores the
(request, response-or-error) pair under the timestamp-derived key —
fresh keys (the timestamp is assumed unique) extend the log without
clobbering other entries — and the callback has no effect on control
flow or user-visible output: it emits no replies and mutates no other
state. -/
theorem c8_api_response_callback_pure (state : ConversationState)
    (response_id : String) (request : Request) (response : Option Response)
    (error : Option String)
    (hFresh : dictGet? state.responses response_id = none) :
    dictGet? (api_response_callback state response_id request response error).1.responses
      response_id = some (request, response) ∧
    (api_response_callback state response_id request response error).2 = [] ∧
    (api_response_callback state response_id request response error).1.messages
      = state.messages ∧
    (api_response_callback state response_id request response error).1.tools
      = state.tools ∧
    (api_response_callback state response_id request response error).1.only_n_most_recent_images
      = state.only_n_most_recent_images ∧
    (api_response_callback state response_id request response error).1.custom_system_prompt
      = state.custom_system_prompt ∧
    (∀ k, k ≠ response_id →
      dictGet? (api_response_callback state response_id request response error).1.responses k
        = dictGet? state.responses k) ∧
    (api_response_callback state response_id request response error).1.responses.length
      = state.responses.length + 1 := by
  refine ⟨dictGet?_dictSet_self _ _ _, rfl, rfl, rfl, rfl, rfl,
    fun k hk => dictGet?_dictSet_ne _ _ _ _ hk, ?_⟩
  exact dictSet_length_of_absent _ _ _ hFresh

/-- Concrete run of `c8_api_response_callback_pure`: a failed request
logged under a fresh timestamp key. -/
theorem c8_api_response_callback_pure_witness :
    dictGet? sampleState.responses "2025-01-01T00:00:00" = none ∧
    (dictGet? (api_response_callback sampleState "2025-01-01T00:00:00"
        { tag := "req" } none (some "boom")).1.responses "2025-01-01T00:00:00"
      = some ({ tag := "req" }, none) ∧
     (api_response_callback sampleState "2025-01-01T00:00:00"
        { tag := "req" } none (some "boom")).2 = [] ∧
     (api_response_callback sampleState "2025-01-01T00:00:00"
        { tag := "req" } none (some "boom")).1.messages = sampleState.messages ∧
     (api_response_callback sampleState "2025-01-01T00:00:00"
        { tag := "req" } none (some "boom")).1.tools = sampleState.tools ∧
     (api_response_callback sampleState "2025-01-01T00:00:00"
        { tag := "req" } none (some "boom")).1.only_n_most_recent_images
       = sampleState.only_n_most_recent_images ∧
     (api_response_callback sampleState "2025-01-01T00:00:00"
        { tag := "req" } none (some "boom")).1.custom_system_prompt
       = sampleState.custom_system_prompt ∧
     (∀ k, k ≠ "2025-01-01T00:00:00" →
       dictGet? (api_response_callback sampleState "2025-01-01T00:00:00"
          { tag := "req" } none (some "boom")).1.responses k
         = dictGet? sampleState.responses k) ∧
     (api_response_callback sampleState "2025-01-01T00:00:00"
        { tag := "req" } none (some "boom")).1.responses.length
       = sampleState.responses.length + 1) :=
  ⟨rfl, c8_api_response_callback_pure sampleState "2025-01-01T00:00:00"
    { tag := "req" } none (some "boom") rfl⟩

/-- Claim C9: an authorized reset clears the issuing user's history,
tool results and config (the whole stored state is dropped), and a
subsequent message from that user starts from a fresh
`ConversationState` — empty history, empty tool results, default
config. -/
theorem c9_reset_starts_fresh (allowed : Option String) (bot : BotState)
    (user_id : Nat) (message_text : String) (loop : List Message → LoopResult)
    (hAuth : authorized allowed user_id = true) :
    dictGet? (reset allowed bot user_id).1.user_states user_id = none ∧
    (reset allowed bot user_id).2 =
      [Event.replyText "Conversation reset. Send a new message to start fresh."] ∧
    freshState = { messages := [], tools := [], responses := [],
                   only_n_most_recent_images := 10, custom_system_prompt := "" } ∧
    (handle_message allowed (reset allowed bot user_id).1 user_id message_text
      loop).sentToLoop = some [userEntry message_text] ∧
    dictGet? (handle_message allowed (reset allowed bot user_id).1 user_id message_text
      loop).bot.user_states user_id
      = some (process_message freshState message_text loop).state := by
  have hnone : dictGet? (reset allowed bot user_id).1.user_states user_id = none := by
    by_cases h : dictHas bot.user_states user_id
    · simp [reset, hAuth, h, dictGet?_dictDel_self]
    · have hget : dictGet? bot.user_states user_id = none :=
        Option.not_isSome_iff_eq_none.mp (by simpa [dictHas] using h)
      simp [reset, hAuth, h, hget]
  refine ⟨hnone, by simp [reset, hAuth], rfl, ?_, ?_⟩
  · rw [handle_message_authorized allowed _ user_id message_text loop hAuth]
    simp [hnone, process_message_sentToLoop, freshState]
  · rw [handle_message_authorized allowed _ user_id message_text loop hAuth]
    simp [hnone, dictGet?_dictSet_self]

/-- Concrete run of `c9_reset_starts_fresh`: user 7 resets a
two-entry conversation and then sends "again" into an echoing loop. -/
theorem c9_reset_starts_fresh_witness :
    authorized (some "7") 7 = true ∧
    (dictGet? (reset (some "7") sampleBot 7).1.user_states 7 = none ∧
     (reset (some "7") sampleBot 7).2 =
       [Event.replyText "Conversation reset. Send a new message to start fresh."] ∧
     freshState = { messages := [], tools := [], responses := [],
                    only_n_most_recent_images := 10, custom_system_prompt := "" } ∧
     (handle_message (some "7") (reset (some "7") sampleBot 7).1 7 "again"
       (fun h => LoopResult.ok h)).sentToLoop = some [userEntry "again"] ∧
     dictGet? (handle_message (some "7") (reset (some "7") sampleBot 7).1 7 "again"
       (fun h => LoopResult.ok h)).bot.user_states 7
       = some (process_message freshState "again" (fun h => LoopResult.ok h)).state) :=
  ⟨by decide, c9_reset_starts_fresh (some "7") sampleBot 7 "again" _ (by decide)⟩

/-- Claim C10: an authorized message for a user with no stored state
runs against a freshly created state — empty history, empty tool-result
and response logs, image-retention limit 10, empty system-prompt
suffix — while a user with stored state keeps it intact going into
orchestration: the loop receives exactly the stored history with the
single new user entry appended, and the stored state is the one the
orchestrator was driven from. -/
theorem c10_lazy_init_preserves_state (allowed : Option String) (bot : BotState)
    (user_id : Nat) (message_text : String) (loop : List Message → LoopResult)
    (hAuth : authorized allowed user_id = true) :
    (dictGet? bot.user_states user_id = none →
      (handle_message allowed bot user_id message_text loop).sentToLoop
        = some [userEntry message_text] ∧
      dictGet? (handle_message allowed bot user_id message_text loop).bot.user_states
        user_id = some (process_message freshState message_text loop).state ∧
      freshState = { messages := [], tools := [], responses := [],
                     only_n_most_recent_images := 10, custom_system_prompt := "" }) ∧
    (∀ s, dictGet? bot.user_states user_id = some s →
      (handle_message allowed bot user_id message_text loop).sentToLoop
        = some (s.messages ++ [userEntry message_text]) ∧
      dictGet? (handle_message allowed bot user_id message_text loop).bot.user_states
        user_id = some (process_message s message_text loop).state) := by
  rw [handle_message_authorized allowed bot user_id message_text loop hAuth]
  constructor
  · intro h
    refine ⟨?_, ?_, rfl⟩ <;>
      simp [h, process_message_sentToLoop, dictGet?_dictSet_self, freshState]
  · intro s hs
    refine ⟨?_, ?_⟩ <;>
      simp [hs, process_message_sentToLoop, dictGet?_dictSet_self]

/-- Concrete run of `c10_lazy_init_preserves_state`: user 7 already has
a stored conversation; the loop echoes its input history. -/
theorem c10_lazy_init_preserves_state_witness :
    authorized (some "7") 7 = true ∧
    ((dictGet? sampleBot.user_states 7 = none →
       (handle_message (some "7") sampleBot 7 "next"
         (fun h => LoopResult.ok h)).sentToLoop = some [userEntry "next"] ∧
       dictGet? (handle_message (some "7") sampleBot 7 "next"
         (fun h => LoopResult.ok h)).bot.user_states 7
         = some (process_message freshState "next" (fun h => LoopResult.ok h)).state ∧
       freshState = { messages := [], tools := [], responses := [],
                      only_n_most_recent_images := 10, custom_system_prompt := "" }) ∧
     (∀ s, dictGet? sampleBot.user_states 7 = some s →
       (handle_message (some "7") sampleBot 7 "next"
         (fun h => LoopResult.ok h)).sentToLoop
         = some (s.messages ++ [userEntry "next"]) ∧
       dictGet? (handle_message (some "7") sampleBot 7 "next"
         (fun h => LoopResult.ok h)).bot.user_states 7
         = some (process_message s "next" (fun h => LoopResult.ok h)).state)) :=
  ⟨by decide, c10_lazy_init_preserves_state (some "7") sampleBot 7 "next" _ (by decide)⟩

end TelegramBot
